import Mathlib

/- Verification of formbar's configuration-tree resolution (config.py) and
   field pipeline (fields.py): element lookup with ref indirection, form field
   resolution through snippets, field type resolution, and per-type value
   coercion.  The Python code is shallowly embedded: XML DOM trees become an
   inductive tree type, unbounded recursion becomes fuel-indexed recursion
   (a `none` result means the Python recursion has not terminated within the
   given depth), and raised exceptions become `Except` errors. -/

namespace Formbar

/-- Python exception classes that the embedded code can raise. -/
inductive PyErr where
  | valueError
  | keyError
  | attributeError
  | typeError
  | recursionError
  deriving DecidableEq

mutual
/-- An XML element node: tag name, attribute list (document order), optional
    text content and child elements.  Models the `xml.etree.ElementTree.Element`
    values that `formbar.config` walks. -/
inductive XNode where
  | mk (tag : String) (attrs : List (String × String)) (text : Option String)
       (children : XNodes)
  deriving DecidableEq
inductive XNodes where
  | nil
  | cons (head : XNode) (tail : XNodes)
  deriving DecidableEq
end

/-- Converts a Lean list of nodes to the child-list representation. -/
def xs : List XNode → XNodes
  | [] => .nil
  | x :: r => .cons x (xs r)

/-- Convenience constructor for an element without text content. -/
def xn (tag : String) (attrs : List (String × String)) (children : List XNode) :
    XNode :=
  .mk tag attrs none (xs children)

/-- The element's tag name. -/
def XNode.tag : XNode → String
  | .mk t _ _ _ => t

/-- The element's attribute list. -/
def XNode.attrs : XNode → List (String × String)
  | .mk _ a _ _ => a

/-- The element's children, as a Lean list. -/
def XNode.childList : XNode → List XNode
  | .mk _ _ _ cs => go cs
where go : XNodes → List XNode
  | .nil => []
  | .cons c rest => c :: go rest

/-- `element.attrib.get(key)`: first attribute with the given name. -/
def attrGet (n : XNode) (key : String) : Option String :=
  go n.attrs
where go : List (String × String) → Option String
  | [] => none
  | (k, v) :: rest => if k = key then some v else go rest

mutual
/-- All proper descendants of a node in document (pre-)order: what
    `element.findall(".//name")` iterates before filtering by tag. -/
def descendants : XNode → List XNode
  | .mk _ _ _ cs => descList cs
/-- Descendant collection over a child list. -/
def descList : XNodes → List XNode
  | .nil => []
  | .cons c rest => c :: descendants c ++ descList rest
end

/-- `Config.get_elements` / the query `".//name"`: all descendant elements
    with the given tag, document order. -/
def findallTag (t : XNode) (tag : String) : List XNode :=
  (descendants t).filter (fun n => n.tag = tag)

/-- The query built by `Config.get_element`: `".//name"`, plus the predicate
    `[@id='...']` when `id` is truthy (Python: `if id:`). -/
def findallTagId (t : XNode) (tag id : String) : List XNode :=
  if id = "" then findallTag t tag
  else (findallTag t tag).filter (fun n => attrGet n "id" = some id)

/-- The `ref` attribute of a node when it is truthy (`ref = attrib.get('ref');
    if ref:`): a missing or empty attribute counts as no reference. -/
def refTruthy (n : XNode) : Option String :=
  match attrGet n "ref" with
  | some r => if r = "" then none else some r
  | none => none

/-- `Config.get_element(name, id)` with explicit recursion fuel.  Result
    `none` means the Python recursion has not terminated within `fuel` calls;
    `some (.error .keyError)` models `raise KeyError('Element is ambigous')`;
    `some (.ok r)` is the returned element or `None`. -/
def get_element : Nat → XNode → String → String → Option (Except PyErr (Option XNode))
  | 0, _, _, _ => none
  | fuel+1, t, tag, id =>
    if 1 < (findallTagId t tag id).length then some (.error .keyError)
    else
      match findallTagId t tag id with
      | [m] =>
        match refTruthy m with
        | some r => get_element fuel t tag r
        | none => some (.ok (some m))
      | _ => some (.ok none)

/-- Fixture with two `entity` nodes sharing an id (ambiguous lookup). -/
def twoTree : XNode :=
  xn "configuration" [] [xn "entity" [("id", "a")] [], xn "entity" [("id", "a")] []]

/-- Fixture with no matching node. -/
def zeroTree : XNode := xn "configuration" [] []

/-- Fixture with a unique match without `ref`. -/
def oneTree : XNode := xn "configuration" [] [xn "entity" [("id", "a")] []]

/-- Fixture where the unique match for id `a` refers to id `b`. -/
def refTree : XNode :=
  xn "configuration" []
    [xn "entity" [("id", "a"), ("ref", "b")] [], xn "entity" [("id", "b")] []]

/-- One step of the `ref` indirection that drives `get_element`'s recursion:
    when the lookup finds exactly one node and that node carries a truthy
    `ref`, the lookup is retried with that reference as the id. -/
def refStep (t : XNode) (tag id : String) : Option String :=
  match findallTagId t tag id with
  | [m] => refTruthy m
  | _ => none

/-- The id reached after `k` indirection steps starting from `id`; `none` once
    the chain has stopped (no unique match, or a match without a truthy ref). -/
def chainId (t : XNode) (tag : String) : Nat → String → Option String
  | 0, i => some i
  | k+1, i =>
    match refStep t tag i with
    | none => none
    | some r => chainId t tag k r

/-- All truthy `ref` attribute values of elements with the given tag: every id
    an indirection step can produce. -/
def allRefs (t : XNode) (tag : String) : List String :=
  (findallTag t tag).filterMap refTruthy

/-- Acyclic fixture: a single entity without any `ref`. -/
def noRefTree : XNode := xn "configuration" [] [xn "entity" [("id", "a")] []]

/-- Cyclic fixture: the entity with id `a` refers to itself. -/
def cycTree : XNode :=
  xn "configuration" [] [xn "entity" [("id", "a"), ("ref", "a")] []]

/-- Python's `str.capitalize`: first character upper-cased, the rest
    lower-cased. -/
def pyCapitalize (s : String) : String :=
  match s.data with
  | [] => ""
  | c :: rest => String.mk (c.toUpper :: rest.map Char.toLower)

/-- The element's text content (`element.text`). -/
def XNode.textContent : XNode → Option String
  | .mk _ _ tx _ => tx

/-- `element.find(tag)`: the first direct child with the given tag. -/
def listFindTag : List XNode → String → Option XNode
  | [], _ => none
  | c :: rest, tag => if c.tag = tag then some c else listFindTag rest tag

/-- The attributes and subelements `formbar.config.Field.__init__` reads off
    an `entity` element.  Rule expressions are stored as written; compiling
    them is delegated to the external expression engine (`formbar.rules` is a
    collaborator, not part of this core). -/
structure FieldC where
  id : Option String
  name : String
  label : String
  number : String
  ftype : String
  css : String
  readonly : Bool
  autocomplete : String
  help : Option String
  rules : List (Option String × Option String × Option String)
  deriving DecidableEq

/-- `formbar.config.Field.__init__`: constructing a field configuration from
    an entity element.  `Config.__init__` raises `ValueError` when handed a
    non-element (in particular `None` from a failed entity lookup), and a
    missing `name` raises `AttributeError` because the `label` default eagerly
    evaluates `self.name.capitalize()`. -/
def mkFieldC (entity : Option XNode) : Except PyErr FieldC :=
  match entity with
  | none => .error .valueError
  | some e =>
    match attrGet e "name" with
    | none => .error .attributeError
    | some nm =>
      .ok { id := attrGet e "id"
            name := nm
            label := (attrGet e "label").getD (pyCapitalize nm)
            number := (attrGet e "number").getD ""
            ftype := (attrGet e "type").getD "string"
            css := (attrGet e "css").getD ""
            readonly := ((attrGet e "readonly").getD "true") = "true"
            autocomplete := (attrGet e "autocomplete").getD "on"
            help := match listFindTag e.childList "help" with
                    | some h => h.textContent
                    | none => none
            rules := (e.childList.filter (fun c => c.tag = "rule")).map
                     (fun r => (attrGet r "expr", attrGet r "msg", attrGet r "mode")) }

/-- Python dict assignment `d[k] = v`: overwrite in place or append. -/
def dictInsert {α : Type} : List (String × α) → String → α → List (String × α)
  | [], k, v => [(k, v)]
  | (k', v') :: rest, k, v =>
    if k' = k then (k, v) :: rest else (k', v') :: dictInsert rest k v

/-- Python dict lookup `d.get(k)`. -/
def dictLookup {α : Type} : List (String × α) → String → Option α
  | [], _ => none
  | (k', v') :: rest, k => if k' = k then some v' else dictLookup rest k

/-- Python `d.update(new)`: later insertions overwrite same-named entries. -/
def dictUpdate {α : Type} (m new : List (String × α)) : List (String × α) :=
  new.foldl (fun acc kv => dictInsert acc kv.1 kv.2) m

/-- The mutable state `Form.get_fields` reads and writes on `self`:
    the `_initialized` flag, the `_fields` attribute (absent until
    `Form.__init__` assigns it — `none` models a not-yet-existing attribute),
    and the `_id2name` index. -/
structure FormState where
  initialized : Bool
  fields : Option (List (String × FieldC))
  id2name : List (String × String)
  deriving DecidableEq

/-- The `for f in root.findall('.//field')` loop of `Form.get_fields`: resolve
    each field's `ref` to an `entity` element of the parent configuration,
    build a `Field` configuration and insert it by name. -/
def fieldLoop (pt : XNode) (gf : Nat) :
    List (String × FieldC) → List (String × String) → List XNode →
    Except PyErr (List (String × FieldC) × List (String × String))
  | fm, idx, [] => .ok (fm, idx)
  | fm, idx, f :: rest =>
    match get_element gf pt "entity" ((attrGet f "ref").getD "") with
    | none => .error .recursionError
    | some (.error e) => .error e
    | some (.ok ent) =>
      match mkFieldC ent with
      | .error e => .error e
      | .ok fc =>
        fieldLoop pt gf (dictInsert fm fc.name fc)
          (dictInsert idx ((attrGet f "ref").getD "") fc.name) rest

/-- The `for s in root.findall('.//snippet')` loop of `Form.get_fields`:
    a snippet node with a truthy `ref` is resolved at the top level and
    expanded by a recursive `get_fields` call (`recur`), whose mapping is
    merged with `fields.update(...)`; a snippet without `ref` is skipped. -/
def snipLoop (pt : XNode) (gf : Nat)
    (recur : FormState → Option XNode → Except PyErr (List (String × FieldC) × FormState)) :
    FormState → List (String × FieldC) → List XNode →
    Except PyErr (List (String × FieldC) × FormState)
  | st, fm, [] => .ok (fm, st)
  | st, fm, s :: rest =>
    if (attrGet s "ref").getD "" = "" then snipLoop pt gf recur st fm rest
    else
      match get_element gf pt "snippet" ((attrGet s "ref").getD "") with
      | none => .error .recursionError
      | some (.error e) => .error e
      | some (.ok sres) =>
        match recur st sres with
        | .error e => .error e
        | .ok (sfm, st') => snipLoop pt gf recur st' (dictUpdate fm sfm) rest

/-- `Form.get_fields(root)`: if `self._initialized`, return `self._fields`
    (an `AttributeError` if that attribute does not exist yet); otherwise walk
    `root` (defaulting to the form's own tree), collecting direct fields first
    and then expanding snippets, and finally set `self._initialized`.  `fuel`
    bounds the Python call recursion, `gf` the `get_element` recursion. -/
def get_fields (pt ft : XNode) (gf : Nat) :
    Nat → FormState → Option XNode →
    Except PyErr (List (String × FieldC) × FormState)
  | 0, _, _ => .error .recursionError
  | fuel+1, st, rootOpt =>
    if st.initialized then
      match st.fields with
      | some f => .ok (f, st)
      | none => .error .attributeError
    else
      match fieldLoop pt gf [] st.id2name (findallTag (rootOpt.getD ft) "field") with
      | .error e => .error e
      | .ok (fm, idx) =>
        match snipLoop pt gf (fun st2 r2 => get_fields pt ft gf fuel st2 r2)
            { st with id2name := idx } fm (findallTag (rootOpt.getD ft) "snippet") with
        | .error e => .error e
        | .ok (fm2, st2) => .ok (fm2, { st2 with initialized := true })

/-- `Form.__init__`: starts with `_initialized = False`, no `_fields`
    attribute and an empty `_id2name`, runs `get_fields()` and only then
    assigns `self._fields`. -/
def formInit (pt ft : XNode) (gf fuel : Nat) :
    Except PyErr (List (String × FieldC) × FormState) :=
  match get_fields pt ft gf fuel ⟨false, none, []⟩ none with
  | .error e => .error e
  | .ok (fm, st) => .ok (fm, { st with fields := some fm })

/-- Entities, snippets and form for the two-snippet configuration. -/
def twinEnt1 : XNode := xn "entity" [("id", "e1"), ("name", "a")] []

/-- Second entity of the two-snippet configuration. -/
def twinEnt2 : XNode := xn "entity" [("id", "e2"), ("name", "b")] []

/-- Snippet `s1` containing a field referring to entity `e1`. -/
def twinSnip1 : XNode := xn "snippet" [("id", "s1")] [xn "field" [("ref", "e1")] []]

/-- Snippet `s2` containing a field referring to entity `e2`. -/
def twinSnip2 : XNode := xn "snippet" [("id", "s2")] [xn "field" [("ref", "e2")] []]

/-- A form including the two snippets by reference. -/
def twinForm : XNode :=
  xn "form" [("id", "f1")]
    [xn "snippet" [("ref", "s1")] [], xn "snippet" [("ref", "s2")] []]

/-- The whole two-snippet configuration document. -/
def twinCfg : XNode :=
  xn "configuration" [] [twinEnt1, twinEnt2, twinSnip1, twinSnip2, twinForm]

/-- Entity `e1`, carrying the (parametric) field name. -/
def entityA (N : String) : XNode := xn "entity" [("id", "e1"), ("name", N)] []

/-- Entity `e2`, carrying the same field name. -/
def entityB (N : String) : XNode := xn "entity" [("id", "e2"), ("name", N)] []

/-- The included snippet defining the same-named field via entity `e2`. -/
def overSnippet : XNode := xn "snippet" [("id", "s1")] [xn "field" [("ref", "e2")] []]

/-- A form with a direct field (entity `e1`) and the snippet included after. -/
def overForm : XNode :=
  xn "form" [("id", "f1")]
    [xn "field" [("ref", "e1")] [], xn "snippet" [("ref", "s1")] []]

/-- The configuration where the form's direct field and the snippet field
    share one name. -/
def overCfg (N : String) : XNode :=
  xn "configuration" [] [entityA N, entityB N, overSnippet, overForm]

mutual
/-- A Python value flowing through field value coercion: `None`, strings,
    whole numbers, booleans and lists of values. -/
inductive PyVal where
  | none
  | str (s : String)
  | int (n : Int)
  | bool (b : Bool)
  | list (l : PyVals)
  deriving DecidableEq
inductive PyVals where
  | nil
  | cons (head : PyVal) (tail : PyVals)
  deriving DecidableEq
end

/-- Converts a Lean list of values to the embedded list representation. -/
def pvs : List PyVal → PyVals
  | [] => .nil
  | x :: r => .cons x (pvs r)

/-- A Python list value from a Lean list. -/
def pv (l : List PyVal) : PyVal := .list (pvs l)

mutual
/-- Python 2 `repr` of a value (used by `unicode` on containers): numbers
    plain, strings quoted, lists bracketed and comma-joined. -/
def pyRepr : PyVal → String
  | .none => "None"
  | .str s => "\x27" ++ s ++ "\x27"
  | .int n => toString n
  | .bool b => if b then "True" else "False"
  | .list l => "[" ++ pyReprList l ++ "]"
/-- `", ".join(repr(e) for e in l)`. -/
def pyReprList : PyVals → String
  | .nil => ""
  | .cons x .nil => pyRepr x
  | .cons x (.cons y r) => pyRepr x ++ ", " ++ pyReprList (.cons y r)
end

/-- Python 2 `unicode(value)`: strings pass through, other values take their
    textual form (lists via `repr`). -/
def pyUnicode : PyVal → String
  | .str s => s
  | .int n => toString n
  | .bool b => if b then "True" else "False"
  | .none => "None"
  | .list l => pyRepr (.list l)

/-- Python truthiness of an embedded value. -/
def pyTruthy : PyVal → Bool
  | .none => false
  | .str s => s != ""
  | .int n => n != 0
  | .bool b => b
  | .list .nil => false
  | .list (.cons _ _) => true

/-- `s.startswith(c)` for a single-character prefix. -/
def startsChar (s : String) (c : Char) : Bool := s.data.head? = some c

/-- `s.endswith(c)` for a single-character suffix. -/
def endsChar (s : String) (c : Char) : Bool := s.data.getLast? = some c

/-- Python `s.strip(c)`: remove every leading and trailing occurrence of the
    character. -/
def stripCharList (c : Char) (cs : List Char) : List Char :=
  ((cs.dropWhile (fun x => x = c)).reverse.dropWhile (fun x => x = c)).reverse

/-- `s.strip(c)` on strings. -/
def pyStripChar (s : String) (c : Char) : String := String.mk (stripCharList c s.data)

/-- Python `s.split(c)` (single-character separator, empty parts kept). -/
def splitCharAux (c : Char) : List Char → List Char → List String
  | [], acc => [String.mk acc.reverse]
  | x :: rest, acc =>
    if x = c then String.mk acc.reverse :: splitCharAux c rest []
    else splitCharAux c rest (x :: acc)

/-- `s.split(c)` on strings. -/
def pySplitChar (s : String) (c : Char) : List String := splitCharAux c s.data []

/-- `", ".join` replacement used when serializing selection lists:
    `",".join(parts)`. -/
def joinComma : List String → String
  | [] => ""
  | [x] => x
  | x :: y :: r => x ++ "," ++ joinComma (y :: r)

/-- Whitespace trimming on both ends, as Python `int()` performs before
    parsing. -/
def trimList (cs : List Char) : List Char :=
  ((cs.dropWhile Char.isWhitespace).reverse.dropWhile Char.isWhitespace).reverse

/-- The numeric value of a non-empty all-digit character run. -/
def digitsVal (cs : List Char) : Option Nat :=
  if cs.isEmpty then Option.none
  else if cs.all Char.isDigit then
    some (cs.foldl (fun a c => a * 10 + (c.toNat - 48)) 0)
  else Option.none

/-- Python `int(string)`: optional sign, digits only, `ValueError` otherwise. -/
def pyIntOfString (s : String) : Except PyErr Int :=
  match trimList s.data with
  | '-' :: rest =>
    match digitsVal rest with
    | some n => .ok (-(n : Int))
    | Option.none => .error .valueError
  | '+' :: rest =>
    match digitsVal rest with
    | some n => .ok (n : Int)
    | Option.none => .error .valueError
  | cs =>
    match digitsVal cs with
    | some n => .ok (n : Int)
    | Option.none => .error .valueError

/-- Whether `pat` occurs as a prefix of the character list. -/
def prefixAt : List Char → List Char → Bool
  | [], _ => true
  | _ :: _, [] => false
  | x :: xr, y :: yr => x = y && prefixAt xr yr

/-- Substring containment: Python `hay.find(pat) > -1`. -/
def containsAt (pat : List Char) : List Char → Bool
  | [] => prefixAt pat []
  | y :: rest => prefixAt pat (y :: rest) || containsAt pat rest

/-- Lower-casing, as Python `str.lower()`. -/
def pyLower (s : String) : String := String.mk (s.data.map Char.toLower)

/-- fields.py `get_type_from_sa_property`: map a SQLAlchemy column type name
    to a formbar datatype tag (`TEXT`/`VARCHAR...` → string, `DATE` → date,
    `INTEGER` → integer, `BOOLEAN` → boolean, anything else its literal name,
    logged as an unhandled type); a property without columns (`AttributeError`
    branch) yields the lower-cased relation direction name. -/
def get_type_from_sa_property (columnType : Option String) (directionName : String) :
    String :=
  match columnType with
  | some dtype =>
    if dtype = "TEXT" ∨ containsAt "VARCHAR".data dtype.data then "string"
    else if dtype = "DATE" then "date"
    else if dtype = "INTEGER" then "integer"
    else if dtype = "BOOLEAN" then "boolean"
    else dtype
  | Option.none => pyLower directionName

/-- fields.py `FieldFactory.create`, type choice: the configured type when
    truthy, else the storage-derived type when truthy, else `"string"`. -/
def resolve_dtype (configType : String) (saDtype : Option String) : String :=
  if configType != "" then configType
  else
    match saDtype with
    | some s => if s != "" then s else "string"
    | Option.none => "string"

/-- fields.py `FieldFactory.create`, integrity check: the mismatch diagnostic
    is logged exactly when `sa_dtype != dtype and (sa_dtype is not None and
    dtype != "string")`. -/
def mismatchLogged (saDtype : Option String) (dtype : String) : Bool :=
  (match saDtype with
   | Option.none => true
   | some s => s != dtype) && (saDtype.isSome && dtype != "string")

/-- The renderer configuration attributes that `fields.py` consults:
    `renderer.type`, `renderer.filter`, `renderer.sort`, `renderer.sortorder`. -/
structure RendererC where
  rtype : String
  filter : Option String
  sort : Bool
  sortorder : String
  deriving DecidableEq

/-- fields.py `FieldFactory.create`, renderer-driven promotion: unless the
    resolved type is `manytoone`, `onetomany` or `onetoone`, a present
    renderer of type `dropdown`/`radio` appends `"selection"`, and a
    `checkbox` renderer demands a `string`/`integer` base (raising `TypeError`
    otherwise) and forces `multiselection`.  The result is the final datatype
    name used for builder dispatch. -/
def create_dtype (configType : String) (saDtype : Option String)
    (renderer : Option RendererC) : Except PyErr String :=
  let dtype := resolve_dtype configType saDtype
  match renderer with
  | some r =>
    if dtype = "manytoone" ∨ dtype = "onetomany" ∨ dtype = "onetoone" then .ok dtype
    else if r.rtype = "dropdown" ∨ r.rtype = "radio" then .ok (dtype ++ "selection")
    else if r.rtype = "checkbox" then
      if dtype = "string" ∨ dtype = "integer" then .ok "multiselection"
      else .error .typeError
    else .ok dtype
  | Option.none => .ok dtype

/-- Modelled from the spec: `formbar.converters.to_integer` (the
    `formbar.converters` module is not part of the sources) parses the
    external value to a whole number and fails on non-numeric input. -/
def to_integer (v : PyVal) : Except PyErr Int :=
  match v with
  | .int n => .ok n
  | .bool b => .ok (if b then 1 else 0)
  | .str s => pyIntOfString s
  | _ => .error .valueError

/-- The concrete selection subtype performing per-element coercion in
    `SelectionField._from_python` (`isinstance` checks on the field class). -/
inductive SelKind where
  | intSel
  | boolSel
  | otherSel
  deriving DecidableEq

/-- The per-element conversion of `SelectionField._from_python`: `int(v)` for
    an integer selection, `bool(v)` for a boolean selection, `unicode(v)`
    otherwise. -/
def selElemConv (k : SelKind) (v : String) : Except PyErr PyVal :=
  match k with
  | .intSel => (pyIntOfString v).map PyVal.int
  | .boolSel => .ok (.bool (v != ""))
  | .otherSel => .ok (.str v)

/-- The element loop of `SelectionField._from_python` over the split parts. -/
def selSerializeParts (k : SelKind) : List String → Except PyErr PyVals
  | [] => .ok .nil
  | v :: rest =>
    match selElemConv k v with
    | .error e => .error e
    | .ok x => (selSerializeParts k rest).map (PyVals.cons x)

/-- fields.py `SelectionField._from_python` (internal → external): stringify
    via the base field serializer; a set-like bracketed string (as SQLAlchemy
    stores multiselections) is split on commas and each element coerced by the
    concrete selection subtype, producing a list. -/
def selFromPython (k : SelKind) (value : PyVal) : Except PyErr PyVal :=
  let s := match value with
           | .none => ""
           | v => pyUnicode v
  if startsChar s '{' && endsChar s '}' then
    (selSerializeParts k (pySplitChar (pyStripChar (pyStripChar s '{') '}') ',')).map
      PyVal.list
  else .ok (.str s)

/-- The element loop of `IntSelectionField._to_python` over a list value. -/
def intListToPython : PyVals → Except PyErr PyVals
  | .nil => .ok .nil
  | .cons x rest =>
    match to_integer x with
    | .error e => .error e
    | .ok n => (intListToPython rest).map (PyVals.cons (.int n))

/-- fields.py `IntSelectionField._to_python` (external → internal): a list is
    coerced elementwise with `to_integer`, anything else with `to_integer`
    directly. -/
def intSelToPython (value : PyVal) : Except PyErr PyVal :=
  match value with
  | .list l => (intListToPython l).map PyVal.list
  | v => (to_integer v).map PyVal.int

/-- The strings of the values of an embedded list, for `map(unicode, value)`. -/
def pyUnicodeList : PyVals → List String
  | .nil => []
  | .cons x rest => pyUnicode x :: pyUnicodeList rest

/-- fields.py `SelectionField._to_python` (external → internal): a list is
    serialized as a set-like bracketed string of comma-joined values, anything
    else is stringified. -/
def selToPython (value : PyVal) : PyVal :=
  match value with
  | .list l => .str ("\x7b" ++ joinComma (pyUnicodeList l) ++ "\x7d")
  | v => .str (pyUnicode v)

/-- fields.py `Field.__init__`, default-value resolution: a configured value
    starting with `%` is evaluated by the external expression engine
    (`evalExpr`), one starting with `$` is read off the bound item (through
    `item.get_value(..., expand=True)` for an `info` renderer on items that
    support it, plain `getattr` otherwise; a failed access — `none` — is
    swallowed and leaves `None`).  The resulting truthy value is then passed
    through `self._to_python` with no exception handling, so a conversion
    failure propagates out of the constructor. -/
def initFieldValue (toPython : PyVal → Except PyErr PyVal)
    (evalExpr : String → PyVal)
    (renderTypeInfo itemHasGetValue : Bool)
    (itemGetValueExpand itemAttr : String → Option PyVal)
    (configValue : Option String) : Except PyErr PyVal :=
  let v1 : PyVal :=
    match configValue with
    | Option.none => .none
    | some s =>
      if s != "" && startsChar s '%' then evalExpr (pyStripChar s '%')
      else if s != "" && startsChar s '$' then
        match (if renderTypeInfo && itemHasGetValue
               then itemGetValueExpand (pyStripChar s '$')
               else itemAttr (pyStripChar s '$')) with
        | some v => v
        | Option.none => .none
      else .str s
  if pyTruthy v1 then toPython v1 else .ok v1

/-- What `Field.get_value` returns: the serialized value, the raw internal
    value (when serialization failed), or the supplied default. -/
inductive GetValueRes where
  | ser (s : String)
  | raw (v : PyVal)
  | defaulted (s : String)
  deriving DecidableEq

/-- fields.py `Field.get_value`: serialize `self.value` with `_from_python`
    inside a bare `try`/`except` — on failure log and return the raw value;
    on success return the default when the serialized value is falsy and a
    default is truthy, else the serialized value.  The boolean records whether
    the failure was logged. -/
def get_value (fromPython : PyVal → Except PyErr String) (value : PyVal)
    (dflt : Option String) : GetValueRes × Bool :=
  match fromPython value with
  | .error _ => (.raw value, true)
  | .ok s =>
    if s = "" ∧ dflt.getD "" ≠ "" then (.defaulted (dflt.getD ""), false)
    else (.ser s, false)

/-- `IntegerField._to_python`: `converters.to_integer`. -/
def intFieldToPython (v : PyVal) : Except PyErr PyVal := (to_integer v).map PyVal.int

/-- A character matched by `\w` or `.` in the option-filter token scan. -/
def wordDot (c : Char) : Bool := c.isAlphanum || c = '_' || c = '.'

/-- Emit the token accumulated so far (a `$` followed by at least one
    word character), if any. -/
def emitTok : Option String → List String
  | some tk => if tk = "" then [] else ["$" ++ tk]
  | Option.none => []

/-- The scan behind `re.findall("\x5c$[\x5cw\x5c.]+", expr)`: maximal runs of
    word characters and dots after a `$`. -/
def ftAux : List Char → Option String → List String
  | [], cur => emitTok cur
  | c :: rest, cur =>
    if wordDot c then
      match cur with
      | some tk => ftAux rest (some (tk.push c))
      | Option.none => ftAux rest Option.none
    else emitTok cur ++ ftAux rest (if c = '$' then some "" else Option.none)

/-- All `$`-tokens of a compiled filter expression, in order. -/
def findDollar (s : String) : List String := ftAux s.data Option.none

/-- The per-option values mapping of `CollectionField.filter_options`: every
    `$`-token key (stripped of its `$`) maps to the stringified value of that
    attribute of the option (`option[2].get(key, "")`). -/
def buildValues (keys : List String) (attrs : List (String × PyVal)) :
    List (String × String) :=
  keys.foldl (fun vs k =>
    dictInsert vs (pyStripChar k '$')
      (pyUnicode ((dictLookup attrs (pyStripChar k '$')).getD (.str "")))) []

/-- A user-defined option tuple `(label, value, attribute-dict)` as passed to
    `filter_options`. -/
structure UOption where
  label : PyVal
  val : PyVal
  attrs : List (String × PyVal)

/-- The rule prepared before the option loop of `filter_options`: when the
    renderer and its `filter` attribute are truthy, the filter text is
    compiled through `_build_filter_rule` (`buildRule`, substitution by the
    form-state collaborators) and its `$`-tokens are extracted. -/
def activeFilterRule (renderer : Option RendererC) (buildRule : String → String) :
    Option (String × List String) :=
  match renderer with
  | some r =>
    match r.filter with
    | some f =>
      if f = "" then Option.none else some (buildRule f, findDollar (buildRule f))
    | Option.none => Option.none
  | Option.none => Option.none

/-- The option loop of `filter_options`: each option is appended exactly once,
    with visibility `true` when no rule is active and the truthiness of the
    rule evaluation (`evalRule`, the external expression engine) on the
    option's values otherwise. -/
def foLoop (ri : Option (String × List String))
    (evalRule : String → List (String × String) → Bool) :
    List UOption → List (PyVal × PyVal × Bool)
  | [] => []
  | o :: rest =>
    match ri with
    | some (ex, keys) =>
      (o.label, o.val, evalRule ex (buildValues keys o.attrs)) :: foLoop ri evalRule rest
    | Option.none => (o.label, o.val, true) :: foLoop ri evalRule rest

/-- fields.py `CollectionField.filter_options` over user-defined option
    tuples. -/
def filter_options (renderer : Option RendererC) (buildRule : String → String)
    (evalRule : String → List (String × String) → Bool) (options : List UOption) :
    List (PyVal × PyVal × Bool) :=
  foLoop (activeFilterRule renderer buildRule) evalRule options

/-- C2: for every `(tag, id)` lookup at any recursion depth: more than one
    structural match raises the ambiguity error (`KeyError`); zero matches
    return `None` rather than an error; a single match without a truthy `ref`
    is returned itself; and a single match carrying `ref = r` makes the result
    equal to the lookup `get_element(tag, r)` (recursive equivalence through
    indirection, one fuel step deeper). -/
theorem get_element_unique_spec (t : XNode) (tag id : String) (fuel : Nat) :
    (1 < (findallTagId t tag id).length →
      get_element (fuel+1) t tag id = some (.error .keyError)) ∧
    (findallTagId t tag id = [] →
      get_element (fuel+1) t tag id = some (.ok none)) ∧
    (∀ m, findallTagId t tag id = [m] → refTruthy m = none →
      get_element (fuel+1) t tag id = some (.ok (some m))) ∧
    (∀ m r, findallTagId t tag id = [m] → refTruthy m = some r →
      get_element (fuel+1) t tag id = get_element fuel t tag r) := by
  refine ⟨fun h => ?_, fun h => ?_, fun m h hr => ?_, fun m r h hr => ?_⟩
  · simp only [get_element, if_pos h]
  · simp only [get_element, h]
    simp
  · simp only [get_element, h, hr]
    simp
  · simp only [get_element, h, hr]
    simp

/-- Witness for C2: each branch of `get_element_unique_spec` applied to a
    concrete configuration tree. -/
theorem get_element_unique_spec_witness :
    get_element 3 twoTree "entity" "a" = some (.error .keyError) ∧
    get_element 3 zeroTree "entity" "a" = some (.ok none) ∧
    get_element 3 oneTree "entity" "a" = some (.ok (some (xn "entity" [("id", "a")] []))) ∧
    get_element 3 refTree "entity" "a" = get_element 2 refTree "entity" "b" := by
  refine ⟨?_, ?_, ?_, ?_⟩
  · exact (get_element_unique_spec twoTree "entity" "a" 2).1 (by decide)
  · exact (get_element_unique_spec zeroTree "entity" "a" 2).2.1 (by decide)
  · exact (get_element_unique_spec oneTree "entity" "a" 2).2.2.1 _ (by decide) (by decide)
  · exact (get_element_unique_spec refTree "entity" "a" 2).2.2.2
      (xn "entity" [("id", "a"), ("ref", "b")] []) "b" (by decide) (by decide)

theorem mem_findallTagId {t : XNode} {tag id : String} {x : XNode}
    (h : x ∈ findallTagId t tag id) : x ∈ findallTag t tag := by
  unfold findallTagId at h
  split at h
  · exact h
  · exact (List.mem_filter.mp h).1

theorem refStep_mem_allRefs {t : XNode} {tag i r : String}
    (h : refStep t tag i = some r) : r ∈ allRefs t tag := by
  unfold refStep at h
  cases hm : findallTagId t tag i with
  | nil => rw [hm] at h; cases h
  | cons m rest =>
    cases rest with
    | nil =>
      rw [hm] at h
      exact List.mem_filterMap.mpr ⟨m, mem_findallTagId (hm ▸ List.mem_singleton.mpr rfl), h⟩
    | cons m2 rest2 => rw [hm] at h; cases h

theorem refStep_get_element {t : XNode} {tag i r : String}
    (h : refStep t tag i = some r) (f : Nat) :
    get_element (f+1) t tag i = get_element f t tag r := by
  unfold refStep at h
  cases hm : findallTagId t tag i with
  | nil => rw [hm] at h; cases h
  | cons m rest =>
    cases rest with
    | nil =>
      rw [hm] at h
      have h2 : refTruthy m = some r := h
      simp [get_element, hm, h2]
    | cons m2 rest2 => rw [hm] at h; cases h

theorem refStep_none_stops {t : XNode} {tag i : String}
    (h : refStep t tag i = none) (f : Nat) :
    get_element (f+1) t tag i ≠ none := by
  unfold refStep at h
  cases hm : findallTagId t tag i with
  | nil => simp [get_element, hm]
  | cons m rest =>
    cases rest with
    | nil =>
      rw [hm] at h
      have h2 : refTruthy m = none := h
      simp [get_element, hm, h2]
    | cons m2 rest2 => simp [get_element, hm]

theorem chainId_none_terminates {t : XNode} {tag : String} :
    ∀ (k : Nat) (i : String), chainId t tag k i = none →
      ∀ f, k ≤ f → get_element f t tag i ≠ none := by
  intro k
  induction k with
  | zero => intro i h; simp [chainId] at h
  | succ k ih =>
    intro i h f hf
    obtain ⟨f', rfl⟩ : ∃ f', f = f'+1 := ⟨f-1, by omega⟩
    cases hs : refStep t tag i with
    | none => exact refStep_none_stops hs f'
    | some r =>
      rw [chainId, hs] at h
      rw [refStep_get_element hs f']
      exact ih r h f' (by omega)

theorem chainId_values {t : XNode} {tag : String} :
    ∀ (k : Nat) (i v : String), chainId t tag k i = some v →
      v = i ∨ v ∈ allRefs t tag := by
  intro k
  induction k with
  | zero => intro i v h; rw [chainId] at h; exact Or.inl (Option.some_injective _ h).symm
  | succ k ih =>
    intro i v h
    rw [chainId] at h
    cases hs : refStep t tag i with
    | none => rw [hs] at h; cases h
    | some r =>
      rw [hs] at h
      rcases ih r v h with rfl | hv
      · exact Or.inr (refStep_mem_allRefs hs)
      · exact Or.inr hv

theorem acyclic_chain_terminates {t : XNode} {tag id : String}
    (hacyc : ∀ i j, chainId t tag i id = chainId t tag j id →
      chainId t tag i id ≠ none → i = j) :
    ∃ k, chainId t tag k id = none := by
  by_contra hnone
  push_neg at hnone
  set L : Finset String := (id :: allRefs t tag).toFinset with hL
  have hmaps : ∀ k ∈ Finset.range (L.card + 1), (chainId t tag k id).getD "" ∈ L := by
    intro k _
    cases hc : chainId t tag k id with
    | none => exact absurd hc (hnone k)
    | some v =>
      simp only [Option.getD_some]
      rcases chainId_values k id v hc with rfl | hv
      · simp [hL]
      · simp only [hL, List.toFinset_cons, Finset.mem_insert, List.mem_toFinset]
        exact Or.inr hv
  have hcard : L.card < (Finset.range (L.card + 1)).card := by simp
  obtain ⟨a, _, b, _, hab, heq⟩ :=
    Finset.exists_ne_map_eq_of_card_lt_of_maps_to hcard hmaps
  rcases hca : chainId t tag a id with _ | va
  · exact absurd hca (hnone a)
  rcases hcb : chainId t tag b id with _ | vb
  · exact absurd hcb (hnone b)
  rw [hca, hcb] at heq
  simp only [Option.getD_some] at heq
  exact hab (hacyc a b (by rw [hca, hcb, heq]) (by rw [hca]; exact Option.some_ne_none _))

theorem chainId_split_none {t : XNode} {tag : String} (a : Nat) :
    ∀ (b : Nat) (i : String), chainId t tag b i = none →
      chainId t tag (a + b) i = none := by
  intro b
  induction b with
  | zero => intro i h; rw [chainId] at h; cases h
  | succ b ih =>
    intro i h
    rw [chainId] at h
    show chainId t tag (a + b + 1) i = none
    rw [chainId]
    cases hs : refStep t tag i with
    | none => rfl
    | some r =>
      rw [hs] at h
      exact ih r h

theorem chainId_split_some {t : XNode} {tag : String} (a : Nat) :
    ∀ (b : Nat) (i v : String), chainId t tag b i = some v →
      chainId t tag (a + b) i = chainId t tag a v := by
  intro b
  induction b with
  | zero => intro i v h; rw [chainId] at h; cases h; rfl
  | succ b ih =>
    intro i v h
    rw [chainId] at h
    show chainId t tag (a + b + 1) i = chainId t tag a v
    rw [chainId]
    cases hs : refStep t tag i with
    | none => rw [hs] at h; cases h
    | some r =>
      rw [hs] at h
      exact ih r v h

theorem chainId_prefix {t : XNode} {tag : String} {k : Nat} {i v : String}
    (h : chainId t tag k i = some v) :
    ∀ k', k' ≤ k → chainId t tag k' i ≠ none := by
  intro k' hk' hn
  have hsplit := @chainId_split_none t tag (k - k') k' i hn
  rw [Nat.sub_add_cancel hk'] at hsplit
  rw [hsplit] at h
  cases h

theorem cycle_chain_all_defined {t : XNode} {tag id : String} {i j : Nat}
    (hij : i < j) (heq : chainId t tag i id = chainId t tag j id)
    (hne : chainId t tag i id ≠ none) : ∀ k, chainId t tag k id ≠ none := by
  obtain ⟨v, hv⟩ : ∃ v, chainId t tag i id = some v := by
    cases hc : chainId t tag i id with
    | none => exact absurd hc hne
    | some v => exact ⟨v, rfl⟩
  have hvj : chainId t tag j id = some v := by rw [← heq, hv]
  have hd1 : 1 ≤ j - i := by omega
  have hdv : chainId t tag (j - i) v = some v := by
    have hsp := @chainId_split_some t tag (j - i) i id v hv
    rw [show j - i + i = j by omega] at hsp
    rw [← hsp, hvj]
  have hv_all : ∀ s, chainId t tag s v ≠ none := by
    intro s
    induction s using Nat.strong_induction_on with
    | _ s ih =>
      by_cases hs : s ≤ j - i
      · exact chainId_prefix hdv s hs
      · intro hn
        have h2 : chainId t tag s v = chainId t tag (s - (j - i)) v := by
          have hsp := @chainId_split_some t tag (s - (j - i)) (j - i) v v hdv
          rw [Nat.sub_add_cancel (by omega)] at hsp
          exact hsp
        exact ih (s - (j - i)) (by omega) (by rw [← h2]; exact hn)
  intro k
  by_cases hk : k ≤ i
  · exact chainId_prefix hv k hk
  · have hsp := @chainId_split_some t tag (k - i) i id v hv
    rw [Nat.sub_add_cancel (by omega)] at hsp
    rw [hsp]
    exact hv_all (k - i)

theorem chain_defined_diverges {t : XNode} {tag : String} :
    ∀ (f : Nat) (id : String), (∀ k, chainId t tag k id ≠ none) →
      get_element f t tag id = none := by
  intro f
  induction f with
  | zero => intro id _; rfl
  | succ f ih =>
    intro id hall
    cases hs : refStep t tag id with
    | none => exact absurd (by rw [chainId, hs] : chainId t tag 1 id = none) (hall 1)
    | some r =>
      rw [refStep_get_element hs f]
      refine ih r (fun k hk => hall (k+1) ?_)
      rw [chainId, hs]
      exact hk

/-- C9: reference indirection terminates for every configuration whose ref
    chains are acyclic: if the chain of ids reached from `id` never revisits a
    value, some finite recursion depth suffices for `get_element` to return
    (it is total under that precondition).  Conversely a reference cycle
    (the chain revisits a defined value) is fatal: no recursion depth makes
    `get_element` return, which in the Python source is unbounded recursion
    that crashes the lookup. -/
theorem get_element_termination (t : XNode) (tag id : String) :
    ((∀ i j, chainId t tag i id = chainId t tag j id →
        chainId t tag i id ≠ none → i = j) →
      ∃ fuel, get_element fuel t tag id ≠ none) ∧
    (∀ i j, i < j → chainId t tag i id = chainId t tag j id →
      chainId t tag i id ≠ none →
      ∀ fuel, get_element fuel t tag id = none) := by
  constructor
  · intro hacyc
    obtain ⟨k, hk⟩ := acyclic_chain_terminates hacyc
    exact ⟨k, chainId_none_terminates k id hk k le_rfl⟩
  · intro i j hij heq hne fuel
    exact chain_defined_diverges fuel id (cycle_chain_all_defined hij heq hne)

/-- Witness for C9: on an acyclic fixture some fuel suffices, and on a
    self-referential fixture no fuel suffices. -/
theorem get_element_termination_witness :
    (∃ fuel, get_element fuel noRefTree "entity" "a" ≠ none) ∧
    get_element 5 cycTree "entity" "a" = none := by
  constructor
  · refine (get_element_termination noRefTree "entity" "a").1 ?_
    have hstep : refStep noRefTree "entity" "a" = none := rfl
    have hnone : ∀ k, chainId noRefTree "entity" (k+1) "a" = none := by
      intro k
      rw [chainId, hstep]
    intro i j heq hne
    match i, j with
    | 0, 0 => rfl
    | 0, j+1 => rw [hnone j] at heq; rw [chainId] at heq; cases heq
    | i+1, j => exact absurd (hnone i) hne
  · exact (get_element_termination cycTree "entity" "a").2 0 1 (by omega)
      (by decide) (by decide) 5

theorem snipLoop_fields_inv {pt : XNode} {gf : Nat}
    {recur : FormState → Option XNode → Except PyErr (List (String × FieldC) × FormState)}
    (hrec : ∀ st r fm' st', recur st r = .ok (fm', st') → st'.fields = st.fields) :
    ∀ (l : List XNode) (st : FormState) (fm fm' : List (String × FieldC))
      (st' : FormState),
      snipLoop pt gf recur st fm l = .ok (fm', st') → st'.fields = st.fields := by
  intro l
  induction l with
  | nil =>
    intro st fm fm' st' h
    rw [snipLoop] at h
    cases h
    rfl
  | cons s rest ih =>
    intro st fm fm' st' h
    rw [snipLoop] at h
    split at h
    · exact ih st fm fm' st' h
    · split at h
      · cases h
      · cases h
      · rename_i sres _
        split at h
        · cases h
        · rename_i sfm st2 heq3
          exact (ih st2 _ fm' st' h).trans (hrec st sres sfm st2 heq3)

theorem get_fields_state_inv {pt ft : XNode} {gf : Nat} :
    ∀ (fuel : Nat) (st : FormState) (root : Option XNode)
      (fm' : List (String × FieldC)) (st' : FormState),
      get_fields pt ft gf fuel st root = .ok (fm', st') →
      st'.initialized = true ∧ st'.fields = st.fields := by
  intro fuel
  induction fuel with
  | zero => intro st root fm' st' h; cases h
  | succ fuel ih =>
    intro st root fm' st' h
    rw [get_fields] at h
    split at h
    · rename_i hinit
      split at h
      · cases h
        exact ⟨by simpa using hinit, rfl⟩
      · cases h
    · split at h
      · cases h
      · rename_i fm idx _
        split at h
        · cases h
        · rename_i fm2 st2 heq2
          cases h
          refine ⟨rfl, ?_⟩
          show st2.fields = st.fields
          exact @snipLoop_fields_inv pt gf (fun st2 r2 => get_fields pt ft gf fuel st2 r2)
            (fun st3 r3 fm3 st3' hh => (ih st3 r3 fm3 st3' hh).2)
            (findallTag (root.getD ft) "snippet") { st with id2name := idx } fm _ st2 heq2

/-- C10: resolving a form that triggers two (or more) recursive snippet
    expansions fails with an `AttributeError` instead of merging all snippet
    fields.  Mechanism, in three parts: a `get_fields` call entered with the
    `_initialized` flag set but no `_fields` attribute raises `AttributeError`;
    every successful `get_fields` call returns with `_initialized` set while
    it never assigns `_fields` (only `Form.__init__` does, after the outermost
    call returns), so the first completed snippet expansion puts the form into
    exactly that state; and on a concrete form with two snippet references,
    construction indeed fails with `AttributeError`. -/
theorem double_snippet_attribute_error :
    (∀ (pt ft : XNode) (gf fuel : Nat) (st : FormState) (root : Option XNode),
      st.initialized = true → st.fields = none →
      get_fields pt ft gf (fuel+1) st root = .error .attributeError) ∧
    (∀ (pt ft : XNode) (gf fuel : Nat) (st : FormState) (root : Option XNode)
        (fm' : List (String × FieldC)) (st' : FormState),
      get_fields pt ft gf fuel st root = .ok (fm', st') →
      st'.initialized = true ∧ st'.fields = st.fields) ∧
    formInit twinCfg twinForm 4 4 = .error .attributeError := by
  refine ⟨?_, ?_, ?_⟩
  · intro pt ft gf fuel st root hinit hf
    rw [get_fields]
    simp [hinit, hf]
  · intro pt ft gf fuel st root fm' st' h
    exact get_fields_state_inv fuel st root fm' st' h
  · rfl

/-- Witness for C10: the cached-branch failure at a concrete state with the
    flag set and no field mapping, and the state invariant at the concrete
    first snippet expansion of the two-snippet configuration. -/
theorem double_snippet_attribute_error_witness :
    get_fields twinCfg twinForm 4 3 ⟨true, none, []⟩ none = .error .attributeError ∧
    ((⟨true, none, [("e1", "a")]⟩ : FormState).initialized = true ∧
      (⟨true, none, [("e1", "a")]⟩ : FormState).fields =
        (⟨false, none, []⟩ : FormState).fields) := by
  constructor
  · exact double_snippet_attribute_error.1 twinCfg twinForm 4 2 ⟨true, none, []⟩ none rfl rfl
  · exact double_snippet_attribute_error.2.1 twinCfg twinForm 4 4 ⟨false, none, []⟩
      (some twinSnip1)
      [("a", ⟨some "e1", "a", "A", "", "string", "", true, "on", none, []⟩)]
      ⟨true, none, [("e1", "a")]⟩ rfl

/-- C6: when a form's own field node and an included snippet both define a
    field with the same name `N`, the final mapping holds the entry resolved
    last in the document walk: the direct fields are collected first, the
    snippet expansion is merged afterwards via `update`, so the snippet's
    field (from entity `e2`) overwrites the direct one (from entity `e1`). -/
theorem snippet_field_override (N : String) :
    (formInit (overCfg N) overForm 3 3).map
        (fun p => (dictLookup p.1 N).map FieldC.id) = .ok (some (some "e2")) := by
  simp [formInit, get_fields, fieldLoop, snipLoop, overCfg, overForm, entityA, entityB,
        overSnippet, get_element, findallTag, findallTagId, descendants, descList, xn, xs,
        attrGet, attrGet.go, refTruthy, mkFieldC, dictInsert, dictUpdate, dictLookup,
        XNode.tag, XNode.attrs, listFindTag, XNode.childList, XNode.childList.go,
        pyCapitalize, Except.map]

/-- C1 (evaluation at the failing inputs): the claimed type-resolution
    precedence does not hold in the code.  `get_type_from_sa_property` does
    derive `"integer"` from an `INTEGER` column, but `config.Field` defaults a
    missing `type` attribute to `"string"`, so a field declaring no type with
    storage-derived `"integer"` resolves to `"string"` (not `"integer"`), and
    the mismatch check suppresses its diagnostic whenever the resolved type is
    `"string"`, so configured `"string"` against storage `"integer"` logs
    nothing — although `create`'s own fallback (`resolve_dtype` with a falsy
    configured type) would produce `"integer"`, as the code's comments intend.
    The no-type/no-storage case resolves to `"string"` without a diagnostic,
    as claimed. -/
theorem type_resolution_eval :
    get_type_from_sa_property (some "INTEGER") "" = "integer" ∧
    (mkFieldC (some (xn "entity" [("id", "e9"), ("name", "age")] []))).map FieldC.ftype
      = .ok "string" ∧
    resolve_dtype "string" (some "integer") = "string" ∧
    mismatchLogged (some "integer") "string" = false ∧
    resolve_dtype "" (some "integer") = "integer" ∧
    mismatchLogged (some "integer") "integer" = false ∧
    resolve_dtype "string" Option.none = "string" ∧
    mismatchLogged Option.none "string" = false :=
  ⟨rfl, rfl, rfl, rfl, rfl, rfl, rfl, rfl⟩

/-- C3 counterexample: for an integer-selection field the claimed round trip
    fails at `"\x7b1,2,3\x7d"` and `[1,2,3]`: the external-to-internal
    coercion `IntSelectionField._to_python` of the bracketed string is a
    conversion error (`to_integer` on a non-numeric string), not `[1,2,3]`,
    and the internal-to-external coercion `_from_python` of the list `[1,2,3]`
    is the plain stringification `"[1, 2, 3]"`, not `"\x7b1,2,3\x7d"`. -/
theorem intselection_roundtrip_counter :
    intSelToPython (.str "\x7b1,2,3\x7d") ≠ .ok (pv [.int 1, .int 2, .int 3]) ∧
    selFromPython .intSel (pv [.int 1, .int 2, .int 3]) ≠ .ok (.str "\x7b1,2,3\x7d") := by
  constructor
  · intro h
    rw [show intSelToPython (.str "\x7b1,2,3\x7d") = .error .valueError from rfl] at h
    cases h
  · intro h
    rw [show selFromPython .intSel (pv [.int 1, .int 2, .int 3])
          = .ok (.str "[1, 2, 3]") from rfl] at h
    simp at h

/-- C3 (amended): the coercion directions are the reverse of the claim.  For
    an integer-selection field the internal-to-external coercion
    (`SelectionField._from_python`) of the set-like bracketed string
    `"\x7b1,2,3\x7d"` yields the list `[1,2,3]` with elements coerced by
    `int`; the external-to-internal coercion (`IntSelectionField._to_python`)
    of the list `[1,2,3]` yields `[1,2,3]` (elementwise `to_integer`); and the
    bracketed string `"\x7b1,2,3\x7d"` is produced from the list by the base
    `SelectionField._to_python` (in effect for string-selection and
    multiselection fields). -/
theorem intselection_coercion_directions :
    selFromPython .intSel (.str "\x7b1,2,3\x7d") = .ok (pv [.int 1, .int 2, .int 3]) ∧
    intSelToPython (pv [.int 1, .int 2, .int 3]) = .ok (pv [.int 1, .int 2, .int 3]) ∧
    selToPython (pv [.int 1, .int 2, .int 3]) = .str "\x7b1,2,3\x7d" :=
  ⟨rfl, rfl, rfl⟩

/-- C4 counterexample: a `manytomany` field with a dropdown renderer does not
    keep its datatype — the code's relation exclusion list is only
    `manytoone`/`onetomany`/`onetoone`, so `manytomany` is promoted to
    `manytomanyselection`, although the claim says relation types are left
    unchanged. -/
theorem manytomany_dropdown_counter :
    create_dtype "manytomany" Option.none (some ⟨"dropdown", Option.none, false, ""⟩)
      = .ok "manytomanyselection" ∧
    create_dtype "manytomany" Option.none (some ⟨"dropdown", Option.none, false, ""⟩)
      ≠ .ok "manytomany" := by
  refine ⟨rfl, fun h => ?_⟩
  rw [show create_dtype "manytomany" Option.none
        (some ⟨"dropdown", Option.none, false, ""⟩) = .ok "manytomanyselection" from rfl] at h
  simp at h

/-- C4 (amended): a dropdown or radio renderer leaves the resolved datatype
    unchanged exactly when it is `manytoone`, `onetomany` or `onetoone`;
    every other resolved datatype — including `manytomany` — gets the suffix
    `"selection"` appended. -/
theorem dropdown_radio_promotion (configType : String) (saDtype : Option String)
    (r : RendererC) (h : r.rtype = "dropdown" ∨ r.rtype = "radio") :
    create_dtype configType saDtype (some r) =
      .ok (if resolve_dtype configType saDtype = "manytoone" ∨
              resolve_dtype configType saDtype = "onetomany" ∨
              resolve_dtype configType saDtype = "onetoone"
           then resolve_dtype configType saDtype
           else resolve_dtype configType saDtype ++ "selection") := by
  by_cases hrel : (resolve_dtype configType saDtype = "manytoone" ∨
      resolve_dtype configType saDtype = "onetomany" ∨
      resolve_dtype configType saDtype = "onetoone")
  · simp [create_dtype, hrel]
  · rcases h with h | h <;> simp [create_dtype, hrel, h]

/-- Witness for C4: `manytomany` with a dropdown is promoted to
    `manytomanyselection`, while `manytoone` with a radio renderer is left
    unchanged. -/
theorem dropdown_radio_promotion_witness :
    create_dtype "manytomany" Option.none (some ⟨"dropdown", Option.none, false, ""⟩)
      = .ok "manytomanyselection" ∧
    create_dtype "manytoone" Option.none (some ⟨"radio", Option.none, false, ""⟩)
      = .ok "manytoone" := by
  constructor
  · have h := dropdown_radio_promotion "manytomany" Option.none
      ⟨"dropdown", Option.none, false, ""⟩ (Or.inl rfl)
    simpa using h
  · have h := dropdown_radio_promotion "manytoone" Option.none
      ⟨"radio", Option.none, false, ""⟩ (Or.inr rfl)
    simpa using h

/-- C5 counterexample: a checkbox renderer on a `manytoone`-typed field does
    not raise — the relation exclusion guard skips the checkbox check
    entirely, although `manytoone` is neither `string` nor `integer`, where
    the claim's "if and only if" demands a `TypeError`. -/
theorem checkbox_relation_counter :
    create_dtype "manytoone" Option.none (some ⟨"checkbox", Option.none, false, ""⟩)
      = .ok "manytoone" ∧
    ¬("manytoone" = "string" ∨ "manytoone" = "integer") :=
  ⟨rfl, by decide⟩

/-- C5 (amended): for a checkbox renderer on a field whose resolved base
    datatype is not one of the relation types `manytoone`/`onetomany`/
    `onetoone` (for which the renderer block is skipped and no error can
    arise), construction raises `TypeError` if and only if the base datatype
    is neither `string` nor `integer`, and a `string`/`integer` base is forced
    to `multiselection`. -/
theorem checkbox_integrity (configType : String) (saDtype : Option String)
    (r : RendererC) (hck : r.rtype = "checkbox")
    (hrel : ¬(resolve_dtype configType saDtype = "manytoone" ∨
        resolve_dtype configType saDtype = "onetomany" ∨
        resolve_dtype configType saDtype = "onetoone")) :
    (create_dtype configType saDtype (some r) = .error .typeError ↔
      ¬(resolve_dtype configType saDtype = "string" ∨
        resolve_dtype configType saDtype = "integer")) ∧
    ((resolve_dtype configType saDtype = "string" ∨
      resolve_dtype configType saDtype = "integer") →
      create_dtype configType saDtype (some r) = .ok "multiselection") := by
  by_cases hsi : (resolve_dtype configType saDtype = "string" ∨
      resolve_dtype configType saDtype = "integer")
  · constructor
    · simp [create_dtype, hrel, hck, hsi]
    · intro _
      simp [create_dtype, hrel, hck, hsi]
  · constructor
    · simp [create_dtype, hrel, hck, hsi]
    · intro h
      exact absurd h hsi

/-- Witness for C5: a checkbox renderer on a `date` field raises `TypeError`,
    and on a `string` field forces `multiselection`. -/
theorem checkbox_integrity_witness :
    create_dtype "date" Option.none (some ⟨"checkbox", Option.none, false, ""⟩)
      = .error .typeError ∧
    create_dtype "string" Option.none (some ⟨"checkbox", Option.none, false, ""⟩)
      = .ok "multiselection" := by
  constructor
  · exact (checkbox_integrity "date" Option.none ⟨"checkbox", Option.none, false, ""⟩
      rfl (by decide)).1.mpr (by decide)
  · exact (checkbox_integrity "string" Option.none ⟨"checkbox", Option.none, false, ""⟩
      rfl (by decide)).2 (Or.inl rfl)

/-- C8 counterexample: a conversion failure during default-value coercion at
    field construction does raise past the field boundary — `Field.__init__`
    calls `self._to_python` on a truthy default value with no exception
    handling, so an `IntegerField` configured with default value `"abc"`
    propagates the conversion error instead of degrading to the raw value. -/
theorem default_value_conversion_raises :
    initFieldValue intFieldToPython (fun _ => .none) false false
      (fun _ => Option.none) (fun _ => Option.none) (some "abc")
      = .error .valueError := rfl

/-- C8 (amended): `Field.get_value` never raises — when serialization via
    `_from_python` fails, it logs the failure and returns the raw internal
    value unchanged; but the coercion of a configured default value at field
    construction is not protected, and a `_to_python` failure there
    propagates out of `Field.__init__`. -/
theorem conversion_failure_policy
    (fromPython : PyVal → Except PyErr String) (value : PyVal) (dflt : Option String)
    (e : PyErr) (hser : fromPython value = .error e)
    (toPython : PyVal → Except PyErr PyVal) (evalExpr : String → PyVal)
    (rti ihg : Bool) (igv ia : String → Option PyVal)
    (s : String) (e2 : PyErr)
    (hs0 : s ≠ "") (hs1 : startsChar s '%' = false) (hs2 : startsChar s '$' = false)
    (hconv : toPython (.str s) = .error e2) :
    get_value fromPython value dflt = (.raw value, true) ∧
    initFieldValue toPython evalExpr rti ihg igv ia (some s) = .error e2 := by
  constructor
  · simp [get_value, hser]
  · have hT : pyTruthy (.str s) = true := by simp [pyTruthy, hs0]
    simp [initFieldValue, hs0, hs1, hs2, hT, hconv]

/-- Witness for C8: a failing serializer makes `get_value` return the raw
    internal value with the failure logged, and an `IntegerField` with
    default value `"abc"` fails construction with the conversion error. -/
theorem conversion_failure_policy_witness :
    get_value (fun _ => .error .valueError) (.int 7) Option.none
      = (.raw (.int 7), true) ∧
    initFieldValue intFieldToPython (fun _ => .none) false false
      (fun _ => Option.none) (fun _ => Option.none) (some "abc")
      = .error .valueError := by
  exact conversion_failure_policy (fun _ => .error .valueError) (.int 7) Option.none
    .valueError rfl intFieldToPython (fun _ => .none) false false
    (fun _ => Option.none) (fun _ => Option.none) "abc" .valueError
    (by decide) (by decide) (by decide) rfl

theorem foLoop_none (evalRule : String → List (String × String) → Bool) :
    ∀ options, foLoop Option.none evalRule options =
      options.map (fun o => (o.label, o.val, true)) := by
  intro options
  induction options with
  | nil => rfl
  | cons o rest ih => simp [foLoop, ih]

theorem foLoop_some (evalRule : String → List (String × String) → Bool)
    (ex : String) (keys : List String) :
    ∀ options, foLoop (some (ex, keys)) evalRule options =
      options.map (fun o => (o.label, o.val, evalRule ex (buildValues keys o.attrs))) := by
  intro options
  induction options with
  | nil => rfl
  | cons o rest ih => simp [foLoop, ih]

/-- C7: `filter_options` returns exactly one `(label, value, visible)` triple
    per input option, in input order — filtering never removes an option;
    with no active filter every triple is visible, and with an active filter
    the visibility of each option is exactly the truthiness of the compiled
    rule evaluated on that option's attribute values. -/
theorem filter_options_tags_not_removes (renderer : Option RendererC)
    (buildRule : String → String)
    (evalRule : String → List (String × String) → Bool) (options : List UOption) :
    ((filter_options renderer buildRule evalRule options).map (fun z => (z.1, z.2.1)) =
      options.map (fun o => (o.label, o.val))) ∧
    (activeFilterRule renderer buildRule = Option.none →
      filter_options renderer buildRule evalRule options =
        options.map (fun o => (o.label, o.val, true))) ∧
    (∀ ex keys, activeFilterRule renderer buildRule = some (ex, keys) →
      filter_options renderer buildRule evalRule options =
        options.map (fun o => (o.label, o.val, evalRule ex (buildValues keys o.attrs)))) := by
  unfold filter_options
  refine ⟨?_, fun hn => ?_, fun ex keys hs => ?_⟩
  · cases activeFilterRule renderer buildRule with
    | none => rw [foLoop_none]; simp
    | some p =>
      rcases p with ⟨ex, keys⟩
      rw [foLoop_some]
      simp
  · rw [hn, foLoop_none]
  · rw [hs, foLoop_some]

/-- Witness for C7: with no renderer every option comes back visible, and with
    the filter `"$status"` both options come back — the one whose `status`
    attribute satisfies the rule visible, the other tagged invisible. -/
theorem filter_options_witness :
    filter_options Option.none (fun f => f) (fun _ _ => false)
        [⟨.str "L1", .int 1, []⟩, ⟨.str "L2", .int 2, []⟩] =
      [(.str "L1", .int 1, true), (.str "L2", .int 2, true)] ∧
    filter_options (some ⟨"dropdown", some "$status", false, ""⟩) (fun f => f)
        (fun _ vs => dictLookup vs "status" == some "active")
        [⟨.str "A", .int 1, [("status", .str "active")]⟩,
         ⟨.str "B", .int 2, [("status", .str "inactive")]⟩] =
      [(.str "A", .int 1, true), (.str "B", .int 2, false)] := by
  constructor
  · rw [(filter_options_tags_not_removes Option.none (fun f => f) (fun _ _ => false)
      [⟨.str "L1", .int 1, []⟩, ⟨.str "L2", .int 2, []⟩]).2.1 rfl]
    rfl
  · rw [(filter_options_tags_not_removes (some ⟨"dropdown", some "$status", false, ""⟩)
      (fun f => f) (fun _ vs => dictLookup vs "status" == some "active")
      [⟨.str "A", .int 1, [("status", .str "active")]⟩,
       ⟨.str "B", .int 2, [("status", .str "inactive")]⟩]).2.2 "$status" ["$status"] rfl]
    rfl

end Formbar
